import Mathlib

/-!
Verification development for the Tangram points/text label style
(`styles/points/points.js`): label size computation, point/text label
linkage, curved-label quad emission, and the fixed-point attribute
encoding contract.

Numbers are modelled as rationals (JS numbers are floats; all claim-relevant
arithmetic here is exact). External collaborators (style parser evaluation,
texture registry, text shaping) are modelled as already-evaluated inputs or
environment-supplied functions.
-/

namespace Tangram

/-- 2D point in tile/world coordinates. -/
abbrev Pt := ℚ × ℚ

/-- Pixel size [w, h]. -/
abbrev Size2 := ℚ × ℚ

/-- RGBA color, already parsed (`parseColor` result). Only presence/absence and
identity matter to the claims. -/
abbrev Color := ℚ × ℚ × ℚ × ℚ

/-- Texture coordinates (a UV rectangle), kept as a plain list of values. -/
abbrev Texcoords := List ℚ

/-! ## Generic list-indexing helper lemmas (used by several proofs) -/

theorem list_getD_append_left {α : Type} (l l' : List α) (n : Nat) (d : α)
    (h : n < l.length) : (l ++ l').getD n d = l.getD n d := by
  induction l generalizing n with
  | nil => exact absurd h (Nat.not_lt_zero n)
  | cons a t ih =>
    cases n with
    | zero => rfl
    | succ m => exact ih m (Nat.lt_of_succ_lt_succ h)

theorem list_getD_append_add {α : Type} (l l' : List α) (i : Nat) (d : α) :
    (l ++ l').getD (l.length + i) d = l'.getD i d := by
  induction l with
  | nil => simp
  | cons a t ih => simpa [List.length_cons, Nat.succ_add] using ih

theorem list_getD_concat_len {α : Type} (l : List α) (a : α) (d : α) :
    (l ++ [a]).getD l.length d = a := by
  simp

theorem list_getD_map {α β : Type} (f : α → β) (l : List α) (i : Nat) (d : β) (d' : α)
    (h : i < l.length) : (l.map f).getD i d = f (l.getD i d') := by
  induction l generalizing i with
  | nil => exact absurd h (Nat.not_lt_zero i)
  | cons a t ih =>
    cases i with
    | zero => rfl
    | succ m => exact ih m (Nat.lt_of_succ_lt_succ h)

theorem list_getD_range (n i : Nat) (d : Nat) (h : i < n) :
    (List.range n).getD i d = i := by
  induction n with
  | zero => exact absurd h (Nat.not_lt_zero i)
  | succ m ih =>
    rw [List.range_succ]
    rcases Nat.lt_or_ge i m with hm | hm
    · rw [list_getD_append_left _ _ _ _ (by simpa using hm)]
      exact ih hm
    · have : i = m := Nat.le_antisymm (Nat.lt_succ_iff.mp h) hm
      subst this
      simp

theorem list_foldl_preserves {α σ : Type} (step : σ → α → σ) (Inv : σ → Prop)
    (h : ∀ s a, Inv s → Inv (step s a)) :
    ∀ (l : List α) (s : σ), Inv s → Inv (l.foldl step s) := by
  intro l
  induction l with
  | nil => intro s hs; exact hs
  | cons a t ih => intro s hs; exact ih (step s a) (h s a hs)

/-! ## Quad/vertex encoder

Embeds the fixed-point normalization constants and `buildQuad` /
`buildArticulatedLabel` from the points style. `Math.PI` is modelled as a
parameter `pi` (the JS value is a specific double approximation of π). -/

-- const pre_angles_normalize = 128 / Math.PI;
def pre_angles_normalize (pi : ℚ) : ℚ := 128 / pi

-- const angles_normalize = 16384 / Math.PI;
def angles_normalize (pi : ℚ) : ℚ := 16384 / pi

-- const offsets_normalize = 64;
def offsets_normalize : ℚ := 64

-- const texcoord_normalize = 65535;
def texcoord_normalize : ℚ := 65535

/-- The configuration record passed by `buildQuad` to the external point-quad
builder (`buildQuadsForPoints`), field for field. -/
structure QuadConfig where
  points : List Pt
  quad : Size2
  quad_normalize : ℚ
  offset : ℚ × ℚ
  offsets : Option (List ℚ)
  pre_angles : Option (List ℚ)
  angle : ℚ
  angles : Option (List ℚ)
  curve : Bool
  texcoord_scale : Option Texcoords
  texcoord_normalize : ℚ
  pre_angles_normalize : ℚ
  angles_normalize : ℚ
  offsets_normalize : ℚ
deriving DecidableEq

/-- Default/junk quad config (used only as a `List.getD` fallback). -/
def dQuadConfig : QuadConfig :=
  { points := [], quad := (0, 0), quad_normalize := 0, offset := (0, 0),
    offsets := Option.none, pre_angles := Option.none, angle := 0,
    angles := Option.none, curve := false, texcoord_scale := Option.none,
    texcoord_normalize := 0, pre_angles_normalize := 0, angles_normalize := 0,
    offsets_normalize := 0 }

/-- `buildQuad` from the points style: packages the arguments plus the
fixed-point normalization constants for the external quad builder. The vertex
attribute indices passed in the source are buffer-layout plumbing and are not
part of the encoded values. -/
def buildQuad (pi : ℚ) (points : List Pt) (size : Size2) (angle : ℚ)
    (angles : Option (List ℚ)) (pre_angles : Option (List ℚ))
    (offset : ℚ × ℚ) (offsets : Option (List ℚ))
    (texcoord_scale : Option Texcoords) (curve : Bool) : QuadConfig :=
  { points := points
    quad := size
    quad_normalize := 256        -- values have an 8-bit fraction
    offset := offset
    offsets := offsets
    pre_angles := pre_angles
    angle := angle * 4096        -- values have a 12-bit fraction
    angles := angles
    curve := curve
    texcoord_scale := texcoord_scale
    texcoord_normalize := texcoord_normalize
    pre_angles_normalize := pre_angles_normalize pi
    angles_normalize := angles_normalize pi
    offsets_normalize := offsets_normalize }

/-- A curved (multi-segment) label record: per-segment arrays `angles`,
`pre_angles`, `offsets`, one entry per glyph segment. -/
structure CurvedLabel where
  position : Pt
  angle : ℚ
  offset : Option (ℚ × ℚ)
  type : String
  num_segments : Nat
  angles : List (List ℚ)
  pre_angles : List (List ℚ)
  offsets : List (List ℚ)

/-- The style fields read by `buildArticulatedLabel`: per-label-type segment
sizes, fill texcoords (`style.texcoords[label.type][i].texcoord`), stroke
texcoords (`style.texcoords_stroke[i]`) and per-segment label textures. -/
structure CurvedStyle where
  size : String → List Size2
  texcoords : String → List Texcoords
  texcoords_stroke : List Texcoords
  label_textures : List String

/-- `buildArticulatedLabel`: two passes over the segments, the stroke pass
first then the fill pass, one quad per segment, each using that segment's own
angles, pre-angles and offsets. The per-segment mesh/texture-uniform
re-pointing in the source targets external mesh state and is not part of the
emitted quad configuration. -/
def buildArticulatedLabel (pi : ℚ) (label : CurvedLabel) (style : CurvedStyle) :
    List QuadConfig :=
  -- pass for stroke
  ((List.range label.num_segments).map (fun i =>
    buildQuad pi [label.position] ((style.size label.type).getD i (0, 0)) label.angle
      (some (label.angles.getD i [])) (some (label.pre_angles.getD i []))
      (label.offset.getD (0, 0)) (some (label.offsets.getD i []))
      (some (style.texcoords_stroke.getD i [])) true))
  ++
  -- pass for fill
  ((List.range label.num_segments).map (fun i =>
    buildQuad pi [label.position] ((style.size label.type).getD i (0, 0)) label.angle
      (some (label.angles.getD i [])) (some (label.pre_angles.getD i []))
      (label.offset.getD (0, 0)) (some (label.offsets.getD i []))
      (some ((style.texcoords label.type).getD i [])) true))

/-- Modelled from the spec: the scaled angle attribute is stored in a signed
16-bit integer vertex slot (`a_shape`, type `gl.SHORT`); the storage conversion
(in the external `buildQuadsForPoints` / typed-array write, not under `src/`)
truncates the scaled value toward zero. -/
def quantizeAttr (x : ℚ) : ℤ := if 0 ≤ x then ⌊x⌋ else ⌈x⌉

/-- Decode a fixed-point angle attribute: divide by 4096. -/
def decodeAngleAttr (n : ℤ) : ℚ := (n : ℚ) / 4096

/-! ## Geometry label generator

`buildLabels` from the points style. The line-placement helper
`placePointsOnLine` (module `labels/point_placement`, not under `src/`) is a
parameter `ppl`; the claims settled here do not depend on its internals. -/

/-- Placement strategies (`LabelPoint.PLACEMENT` from `labels/label_point`). -/
inductive PLACEMENT where
  | VERTEX
  | MIDPOINT
  | SPACED
  | CENTROID
deriving DecidableEq

/-- The per-feature style/layout object built by `addFeature` and
`computeLayout`, carrying the fields the claims refer to. -/
structure PointStyle where
  color : Option Color
  texture : Option String
  texcoords : Option Texcoords
  size : Size2
  outline_width : Option ℚ
  outline_color : Option Color
  outline_edge_pct : ℚ
  placement : PLACEMENT
  placement_min_length : Option ℚ    -- source field: placement_min_length_ratio
  placement_spacing : Option ℚ
  angle : ℚ
  z : ℚ
  tile_edges : Bool
  label_texture : Option String
  units_per_pixel : ℚ
  collide : Bool
  cull_from_tile : Bool
  move_into_tile : Bool
  anchor : List String
  offset : ℚ × ℚ
  buffer : ℚ × ℚ
  repeat_distance : Option ℚ
  repeat_group : Option String
  priority : ℚ
deriving DecidableEq

/-- A point label candidate (`new LabelPoint(position, size, options)`);
`layout` is the options/style object the label was built with. -/
structure LabelPoint where
  position : Pt
  size : Size2
  layout : PointStyle
deriving DecidableEq

/-- Feature geometry, by GeoJSON type. `unrecognized` stands for any type
outside the six handled by the generator (the source branches on the
`geometry.type` string and falls through for all others). -/
inductive Geometry where
  | point (coordinates : Pt)
  | multiPoint (coordinates : List Pt)
  | lineString (coordinates : List Pt)
  | multiLineString (coordinates : List (List Pt))
  | polygon (coordinates : List (List Pt))
  | multiPolygon (coordinates : List (List (List Pt)))
  | unrecognized (typeName : String)
deriving DecidableEq

/-- Cross terms of the shoelace formula over consecutive ring vertices
(with wrap-around). -/
def ringCross (ring : List Pt) : List ℚ :=
  (ring.zip (ring.rotate 1)).map (fun pq => pq.1.1 * pq.2.2 - pq.2.1 * pq.1.2)

/-- Twice the signed area of a ring (shoelace formula). -/
def ringSignedArea2 (ring : List Pt) : ℚ := (ringCross ring).sum

/-- Area centroid of a single ring (standard polygon centroid formula;
division by zero for degenerate rings yields 0 under rational division). -/
def ringCentroid (ring : List Pt) : Pt :=
  let pairs := ring.zip (ring.rotate 1)
  let a2 := ringSignedArea2 ring
  let cx := (pairs.map (fun pq => (pq.1.1 + pq.2.1) * (pq.1.1 * pq.2.2 - pq.2.1 * pq.1.2))).sum
  let cy := (pairs.map (fun pq => (pq.1.2 + pq.2.2) * (pq.1.1 * pq.2.2 - pq.2.1 * pq.1.2))).sum
  (cx / (3 * a2), cy / (3 * a2))

/-- Modelled from the spec: `Geo.centroid` (module `geo`, not under `src/`) —
the centroid of a polygon is the area centroid of its outer ring; holes do not
contribute. -/
def Geo.centroid (rings : List (List Pt)) : Pt :=
  ringCentroid (rings.headD [])

/-- Modelled from the spec: `Geo.multiCentroid` (module `geo`, not under
`src/`) — the area-weighted combination of the outer-ring centroids of a
MultiPolygon's polygons. -/
def Geo.multiCentroid (polys : List (List (List Pt))) : Pt :=
  let items := polys.map (fun poly =>
    (|ringSignedArea2 (poly.headD [])| / 2, ringCentroid (poly.headD [])))
  let total := (items.map (fun it => it.1)).sum
  ((items.map (fun it => it.1 * it.2.1)).sum / total,
   (items.map (fun it => it.1 * it.2.2)).sum / total)

/-- Type of the external `placePointsOnLine` strategy. -/
abbrev PPL := List Pt → Size2 → PointStyle → List LabelPoint

/-- `buildLabels`: builds one or more point labels for a geometry. -/
def buildLabels (ppl : PPL) (size : Size2) (geometry : Geometry)
    (options : PointStyle) : List LabelPoint :=
  match geometry with
  | Geometry.point c => [{ position := c, size := size, layout := options }]
  | Geometry.multiPoint cs =>
      cs.map (fun c => { position := c, size := size, layout := options })
  | Geometry.lineString line => ppl line size options
  | Geometry.multiLineString lines =>
      (lines.map (fun line => ppl line size options)).flatten
  | Geometry.polygon rings =>
      -- Point at polygon centroid (of outer ring)
      if options.placement = PLACEMENT.CENTROID then
        [{ position := Geo.centroid rings, size := size, layout := options }]
      -- Point at each polygon vertex (all rings)
      else
        (rings.map (fun ring => ppl ring size options)).flatten
  | Geometry.multiPolygon polys =>
      if options.placement = PLACEMENT.CENTROID then
        [{ position := Geo.multiCentroid polys, size := size, layout := options }]
      else
        (polys.map (fun rings => (rings.map (fun ring => ppl ring size options)).flatten)).flatten
  | Geometry.unrecognized _ => []

/-! ## addFeature pipeline

Data model for the queued-feature path of `addFeature`. Style-parser property
evaluation is external; `Draw` carries already-evaluated values. The texture
registry, text-feature parsing and line placement are supplied by `Env`. -/

/-- Tile descriptor. -/
structure Tile where
  id : Nat
  key : String
  generation : Nat
  canceled : Bool
  units_per_pixel : ℚ
deriving DecidableEq

/-- Sprite lookup result (`Texture.getSpriteInfo`). -/
structure SpriteInfo where
  texcoords : Texcoords
  size : Size2
deriving DecidableEq

/-- An evaluated `draw.size`: a 1d number (expanded to 2d) or a 2d pair. -/
inductive SizeVal where
  | one (v : ℚ)
  | two (v : Size2)
deriving DecidableEq

/-- Evaluated outline sub-object of a draw group. `width` is the evaluated
outline width (absent when the evaluation produced nothing). -/
structure OutlineDraw where
  width : Option ℚ
  color : Option Color
deriving DecidableEq

/-- The nested `draw.text` group after `_preprocess` (subset of fields the
claims touch). `optional` defaults to `false` in `_preprocess`. -/
structure TextDraw where
  visible : Bool
  priority : Option ℚ
  optional : Bool
deriving DecidableEq

/-- A draw group after `_preprocess`, with cached properties replaced by their
evaluated values for the current context. -/
structure Draw where
  color : Option Color
  texture : Option String
  sprite : Option String
  sprite_default : Option String
  size : Option SizeVal
  outline : Option OutlineDraw
  placement : PLACEMENT
  placement_spacing : Option ℚ
  placement_min_length : Option ℚ     -- source field: placement_min_length_ratio
  angle : ℚ
  z : ℚ
  tile_edges : Bool
  priority : Option ℚ
  collide : Option Bool
  cull_from_tile : Option Bool
  anchor : List String
  offset : Option (ℚ × ℚ)
  buffer : Option (ℚ × ℚ)
  repeat_distance : Option ℚ
  repeat_group : Option String
  key : String
  text : Option TextDraw
deriving DecidableEq

/-- A feature: geometry plus an opaque identity standing for the property bag. -/
structure Feature where
  geometry : Geometry
  id : Nat
deriving DecidableEq

/-- Layout object of a parsed text feature (subset used by the claims). -/
structure TextLayout where
  priority : ℚ
  move_into_tile : Bool
  parent : Option PointStyle
deriving DecidableEq

/-- A parsed text feature (`parseTextFeature` result, external text mixin). -/
structure TextFeature where
  text : String
  text_settings_key : String
  draw : TextDraw
  layout : TextLayout
deriving DecidableEq

/-- Result of the external `parseTextFeature`: nothing, a single text feature,
or an array of boundary labels (which `addFeature` rejects with a warning). -/
inductive TextFeatureResult where
  | noText
  | single (tf : TextFeature)
  | boundary (tfs : List TextFeature)

/-- Registry entry for a texture (`Texture.textures[name]`). -/
structure TexInfo where
  sprites : Option (String → Option SpriteInfo)

/-- External collaborators of the points style. -/
structure Env where
  textures : String → Option TexInfo
  style_texture : Option String          -- this.texture
  default_outline_width : ℚ              -- StyleParser.defaults.outline.width
  parseTextFeature : Feature → TextDraw → Tile → TextFeatureResult
  ppl : PPL

/-- A queued work item (`{ feature, draw, context, style, text_feature }`). -/
structure QFeature where
  feature : Feature
  draw : Draw
  context : Tile
  style : PointStyle
  text_feature : Option TextFeature
deriving DecidableEq

/-- Mutable per-style state: current generation, per-tile queues, per-tile
`tile_data` presence, collision-manager registrations, and the
missing-sprite log dedup set. -/
structure PointsState where
  generation : Nat
  queues : Nat → Option (List QFeature)
  tile_data : Nat → Bool
  collision_styles : List (String × Nat)
  texture_missing_sprites : List (String × String)

-- this.collision_group_points = this.name+'-points' (name = 'points')
def collision_group_points : String := "points-points"

-- this.collision_group_text = this.name+'-text'
def collision_group_text : String := "points-text"

/-- `Collision.addStyle(group, tile.id)`: modelled as recording the
registration. -/
def addCollisionStyle (st : PointsState) (group : String) (tile_id : Nat) :
    PointsState :=
  { st with collision_styles := st.collision_styles ++ [(group, tile_id)] }

/-- `hasSprites`: the style has a texture that is registered and has sprites. -/
def hasSprites (env : Env) (texture : Option String) : Bool :=
  match texture with
  | some t =>
    match env.textures t with
    | some ti => ti.sprites.isSome
    | Option.none => false
  | Option.none => false

/-- `getSpriteInfo`: look a sprite up in the texture registry; a requested but
missing sprite is recorded once in the missing-sprite set (log dedup). -/
def getSpriteInfo (env : Env) (st : PointsState) (texture : String)
    (sprite : Option String) : Option SpriteInfo × PointsState :=
  match sprite with
  | Option.none => (Option.none, st)
  | some s =>
    let info : Option SpriteInfo :=
      match env.textures texture with
      | some ti =>
        match ti.sprites with
        | some sp => sp s
        | Option.none => Option.none
      | Option.none => Option.none
    match info with
    | some i => (some i, st)
    | Option.none =>
      if (texture, s) ∈ st.texture_missing_sprites then (Option.none, st)
      else
        (Option.none,
         { st with texture_missing_sprites :=
             (texture, s) :: st.texture_missing_sprites })

/-- `parseSprite`: evaluated sprite name, falling back to `sprite_default`. -/
def parseSprite (env : Env) (st : PointsState) (texture : String) (draw : Draw) :
    Option SpriteInfo × PointsState :=
  let r1 := getSpriteInfo env st texture draw.sprite
  match r1.1 with
  | some i => (some i, r1.2)
  | Option.none => getSpriteInfo env r1.2 texture draw.sprite_default

/-- Size from `draw.size`, else sprite size, else the generic [16, 16]
fallback (1d sizes are expanded to 2d). -/
def basePointSize (draw_size : Option SizeVal) (sprite_info : Option SpriteInfo) :
    Size2 :=
  match draw_size with
  | Option.none =>
    match sprite_info with
    | some si => si.size
    | Option.none => (16, 16)
  | some (SizeVal.one v) => (v, v)
  | some (SizeVal.two v) => v

/-- Incorporate the outline into the size: both dimensions grow by the outline
width when an outline width and color are both present (JS truthiness: a width
of 0 does not count). -/
def outlinedPointSize (base : Size2) (outline_width : Option ℚ)
    (outline_color : Option Color) : Size2 :=
  if outline_width.getD 0 ≠ 0 ∧ outline_color.isSome then
    (base.1 + outline_width.getD 0, base.2 + outline_width.getD 0)
  else base

/-- The label size before the 256-pixel clamp (lines up to the clamp). -/
def prePointSize (draw_size : Option SizeVal) (sprite_info : Option SpriteInfo)
    (outline_width : Option ℚ) (outline_color : Option Color) : Size2 :=
  outlinedPointSize (basePointSize draw_size sprite_info) outline_width outline_color

/-- The final `style.size` set by `addFeature`: size resolution, outline
incorporation, then the per-dimension clamp to 256 (16-bit signed headroom). -/
def computePointSize (draw_size : Option SizeVal) (sprite_info : Option SpriteInfo)
    (outline_width : Option ℚ) (outline_color : Option Color) : Size2 :=
  let s := outlinedPointSize (basePointSize draw_size sprite_info) outline_width outline_color
  (min s.1 256, min s.2 256)

/-- `style.outline_edge_pct`: UV distance at which the outline starts
(computed from the outline-incorporated, pre-clamp size). -/
def outlineEdgePct (size : Size2) (outline_width : Option ℚ)
    (outline_color : Option Color) : ℚ :=
  if outline_width.getD 0 ≠ 0 ∧ outline_color.isSome then
    outline_width.getD 0 / min size.1 size.2 * 2
  else 0

/-- `computeLayout`: label layout-related properties written onto the style. -/
def computeLayout (style : PointStyle) (draw : Draw) (tile : Tile) : PointStyle :=
  let upp := if tile.units_per_pixel = 0 then 1 else tile.units_per_pixel
  let rd := draw.repeat_distance
  { style with
    units_per_pixel := upp
    collide := if draw.collide = some false then false else true
    cull_from_tile := draw.cull_from_tile.getD false
    move_into_tile := false
    anchor := draw.anchor
    offset := draw.offset.getD (0, 0)
    buffer := draw.buffer.getD (0, 0)
    repeat_distance :=
      match rd with
      | some dist => if dist = 0 then some 0 else some (dist * upp)
      | Option.none => Option.none
    repeat_group :=
      match rd with
      | some dist =>
        if dist = 0 then Option.none else some (draw.repeat_group.getD draw.key)
      | Option.none => Option.none
    priority := draw.priority.getD 4294967295 }   -- -1 >>> 0: max priority value

/-- Whether `draw.text.priority` is truthy (a declared, non-zero priority). -/
def textPriorityDeclared (draw : Draw) : Bool :=
  match draw.text with
  | some td =>
    match td.priority with
    | some p => decide (p ≠ 0)
    | Option.none => false
  | Option.none => false

/-- Priority given to a text label attached to a point: the default is the
parent point priority + 0.5 (lower is higher precedence); a declared text
priority is raised to that floor via max. -/
def attachTextPriority (declared : Bool) (layout_priority point_priority : ℚ) : ℚ :=
  if declared then max layout_priority (point_priority + 1/2)
  else point_priority + 1/2

/-- Text parsing step of `addFeature`: the text feature is parsed only when a
`draw.text` group exists and its `visible` flag is not false. -/
def parseTextForPoint (env : Env) (feature : Feature) (draw : Draw) (tile : Tile) :
    TextFeatureResult :=
  match draw.text with
  | some td =>
    if td.visible then env.parseTextFeature feature td tile
    else TextFeatureResult.noText
  | Option.none => TextFeatureResult.noText

/-- The text-feature branch of `addFeature`: parse the attached text (boundary
label arrays are dropped with a warning), then link its layout to the parent
point style, apply the priority floor, and pin it to the point. -/
def resolveTextFeature (env : Env) (feature : Feature) (draw : Draw) (tile : Tile)
    (style : PointStyle) : Option TextFeature :=
  match parseTextForPoint env feature draw tile with
  | TextFeatureResult.single t =>
    some { t with layout := { t.layout with
      parent := some style
      priority := attachTextPriority (textPriorityDeclared draw) t.layout.priority style.priority
      move_into_tile := false } }
  | _ => Option.none

/-- Point styling assembled by `addFeature` before `computeLayout`. -/
def mkPointStyle (draw : Draw) (color : Option Color) (texture : Option String)
    (sprite_info : Option SpriteInfo) (default_outline_width : ℚ) : PointStyle :=
  let ow : Option ℚ := draw.outline.map (fun o =>
    match o.width with
    | some w => if w = 0 then default_outline_width else w
    | Option.none => default_outline_width)
  let oc : Option Color := draw.outline.bind (fun o => o.color)
  { color := color
    texture := texture
    texcoords := sprite_info.map (fun si => si.texcoords)
    size := computePointSize draw.size sprite_info ow oc
    outline_width := ow
    outline_color := oc
    outline_edge_pct := outlineEdgePct (prePointSize draw.size sprite_info ow oc) ow oc
    placement := draw.placement
    placement_min_length := draw.placement_min_length
    placement_spacing :=
      if draw.placement = PLACEMENT.SPACED ∧ draw.placement_spacing.isSome
      then draw.placement_spacing else Option.none
    angle := draw.angle
    z := draw.z
    tile_edges := draw.tile_edges
    label_texture := Option.none
    units_per_pixel := 1
    collide := true
    cull_from_tile := false
    move_into_tile := false
    anchor := []
    offset := (0, 0)
    buffer := (0, 0)
    repeat_distance := Option.none
    repeat_group := Option.none
    priority := 0 }

/-- `queueFeature`: start tile data if needed, then push onto the per-tile
queue (queue created on first use). -/
def queueFeature (st : PointsState) (q : QFeature) (tile : Tile) : PointsState :=
  let st1 :=
    if st.tile_data tile.id = false ∨ (st.queues tile.id).isNone then
      { st with tile_data := fun id => if id = tile.id then true else st.tile_data id }
    else st
  let cur := (st1.queues tile.id).getD []
  { st1 with queues := fun id => if id = tile.id then some (cur ++ [q]) else st1.queues id }

/-- `style.texture`: the draw group's texture or the style-level default. -/
def drawTexture (env : Env) (draw : Draw) : Option String :=
  match draw.texture with
  | some t => some t
  | Option.none => env.style_texture

/-- The full style object queued by `addFeature` for a feature: point styling
assembled by `mkPointStyle`, then layout fields by `computeLayout`. -/
def addFeatureStyle (env : Env) (draw : Draw) (tile : Tile)
    (sprite_info : Option SpriteInfo) : PointStyle :=
  computeLayout
    (mkPointStyle draw draw.color (drawTexture env draw) sprite_info
      env.default_outline_width) draw tile

/-- The queued work item `{ feature, draw, context, style, text_feature }`. -/
def mkQueued (feature : Feature) (draw : Draw) (tile : Tile) (style : PointStyle)
    (tf : Option TextFeature) : QFeature :=
  { feature := feature, draw := draw, context := tile, style := style,
    text_feature := tf }

/-- Queuing tail of `addFeature` (runs only for non-skipped features):
register the text collision group when a text feature is attached, queue the
work item, and register the points collision group. -/
def addFeatureQueued (env : Env) (st : PointsState) (feature : Feature)
    (draw : Draw) (tile : Tile) (sprite_info : Option SpriteInfo) : PointsState :=
  let style := addFeatureStyle env draw tile sprite_info
  let tf := resolveTextFeature env feature draw tile style
  let st2 := match tf with
    | some _ => addCollisionStyle st collision_group_text tile.id
    | Option.none => st
  let st3 := queueFeature st2 (mkQueued feature draw tile style tf) tile
  addCollisionStyle st3 collision_group_points tile.id

/-- Body of `addFeature` after the generation check: require a color or
texture, resolve the optional sprite (skipping the feature when a sprite is
required but unresolvable), then queue. -/
def addFeatureChecked (env : Env) (st : PointsState) (feature : Feature)
    (draw : Draw) (tile : Tile) : PointsState :=
  let texture := drawTexture env draw
  if draw.color.isNone ∧ texture.isNone then st
  else
    let hs := hasSprites env texture
    let sr := if hs then parseSprite env st (texture.getD "") draw
              else (Option.none, st)
    if hs ∧ sr.1.isNone then sr.2
    else addFeatureQueued env sr.2 feature draw tile sr.1

/-- `addFeature`: queue features instead of processing immediately. Stale
generations are discarded; features without color and texture, or with an
unresolvable sprite, are skipped; otherwise the assembled style (and optional
linked text feature) is queued and registered with the collision manager. -/
def addFeature (env : Env) (st : PointsState) (feature : Feature) (draw : Draw)
    (tile : Tile) : PointsState :=
  if tile.generation ≠ st.generation then st
  else addFeatureChecked env st feature draw tile

/-! ## endData: per-tile batch processing and point/text linkage

`endData` drains a tile's queue, builds labels per feature, and links each
text object to its point object. Object references become arena indices:
`TextObj.linked` indexes into the point-object list, `PointObj.linked`
optionally indexes into the text-object list. -/

/-- A point collision candidate (`point_obj` in `endData`). `linked` is the
index of the two-way-linked text object, when the text is required. -/
structure PointObj where
  feature : Feature
  draw : Draw
  context : Tile
  style : PointStyle
  label : LabelPoint
  linked : Option Nat
deriving DecidableEq

/-- A text collision candidate (`text_obj` in `endData`). `linked` is the
index of the parent point object (text renders only if the point is placed);
`optional` records `q.draw.text.optional` as used for the link decision. -/
structure TextObj where
  feature : Feature
  draw : TextDraw
  context : Tile
  text : String
  text_settings_key : String
  layout : TextLayout
  point_label : LabelPoint
  linked : Nat
  optional : Bool
deriving DecidableEq

/-- Default/junk point style (used only as a `List.getD` fallback). -/
def dPointStyle : PointStyle :=
  { color := Option.none, texture := Option.none, texcoords := Option.none,
    size := (0, 0), outline_width := Option.none, outline_color := Option.none,
    outline_edge_pct := 0, placement := PLACEMENT.VERTEX,
    placement_min_length := Option.none, placement_spacing := Option.none,
    angle := 0, z := 0, tile_edges := false, label_texture := Option.none,
    units_per_pixel := 1, collide := true, cull_from_tile := false,
    move_into_tile := false, anchor := [], offset := (0, 0), buffer := (0, 0),
    repeat_distance := Option.none, repeat_group := Option.none, priority := 0 }

/-- Default/junk feature (used only as a `List.getD` fallback). -/
def dFeature : Feature := { geometry := Geometry.unrecognized "", id := 0 }

/-- Default/junk tile (used only as a `List.getD` fallback). -/
def dTile : Tile :=
  { id := 0, key := "", generation := 0, canceled := false, units_per_pixel := 1 }

/-- Default/junk draw group (used only as a `List.getD` fallback). -/
def dDraw : Draw :=
  { color := Option.none, texture := Option.none, sprite := Option.none,
    sprite_default := Option.none, size := Option.none, outline := Option.none,
    placement := PLACEMENT.VERTEX, placement_spacing := Option.none,
    placement_min_length := Option.none, angle := 0, z := 0, tile_edges := false,
    priority := Option.none, collide := Option.none, cull_from_tile := Option.none,
    anchor := [], offset := Option.none, buffer := Option.none,
    repeat_distance := Option.none, repeat_group := Option.none, key := "",
    text := Option.none }

/-- Default/junk queued feature (used only as a `List.getD` fallback). -/
def dQFeature : QFeature :=
  { feature := dFeature, draw := dDraw, context := dTile, style := dPointStyle,
    text_feature := Option.none }

/-- Default/junk label (used only as a `List.getD` fallback). -/
def dLabelPoint : LabelPoint := { position := (0, 0), size := (0, 0), layout := dPointStyle }

/-- Default/junk point object (used only as a `List.getD` fallback). -/
def dPointObj : PointObj :=
  { feature := dFeature, draw := dDraw, context := dTile, style := dPointStyle,
    label := dLabelPoint, linked := Option.none }

/-- Default/junk text object (used only as a `List.getD` fallback). -/
def dTextObj : TextObj :=
  { feature := dFeature, draw := { visible := true, priority := Option.none, optional := false },
    context := dTile, text := "", text_settings_key := "", layout :=
    { priority := 0, move_into_tile := false, parent := Option.none },
    point_label := dLabelPoint, linked := 0, optional := false }

/-- One iteration of the label loop in `endData`: push the point object; when
the queued feature has an attached text feature, also push the text object
linked one-way to the point, and link the point back two-way unless the text
is optional. -/
def pushObjs (q : QFeature) (label : LabelPoint) :
    List PointObj × List TextObj → List PointObj × List TextObj :=
  fun acc =>
    match q.text_feature with
    | Option.none =>
      (acc.1 ++ [{ feature := q.feature, draw := q.draw, context := q.context,
                   style := q.style, label := label, linked := Option.none }], acc.2)
    | some tf =>
      let optional : Bool :=
        match q.draw.text with
        | some td => td.optional
        | Option.none => false
      let point_obj : PointObj :=
        { feature := q.feature, draw := q.draw, context := q.context,
          style := q.style, label := label,
          -- two-way link unless text feature is optional
          linked := if optional then Option.none else some acc.2.length }
      let text_obj : TextObj :=
        { feature := q.feature, draw := tf.draw, context := q.context,
          text := tf.text, text_settings_key := tf.text_settings_key,
          layout := tf.layout, point_label := label,
          -- link so text only renders when parent point is placed
          linked := acc.1.length, optional := optional }
      (acc.1 ++ [point_obj], acc.2 ++ [text_obj])

/-- The queue-draining loop of `endData`: for each queued feature, build its
labels and push the point/text collision objects. -/
def buildCollisionObjs (ppl : PPL) (queue : List QFeature) :
    List PointObj × List TextObj :=
  queue.foldl (fun acc q =>
    (buildLabels ppl q.style.size q.feature.geometry q.style).foldl
      (fun acc2 l => pushObjs q l acc2) acc)
    ([], [])

/-- Synchronous outcome of `endData`: a canceled tile resolves immediately;
otherwise the drained queue yields the two collision candidate sets handed to
`Collision.collide` (points group and text group). `jsError` marks the
TypeError a missing queue would raise in the source. -/
inductive EndDataResult where
  | canceled
  | resolving (point_objs : List PointObj) (text_objs : List TextObj)
  | jsError

/-- `endData`: stop immediately (resolved, not an error) when the tile was
canceled; otherwise drain this tile's queue and build the collision candidate
sets. The collision passes, vertex building and mesh finalization are
downstream of the `resolving` outcome (external async join). -/
def endData (env : Env) (st : PointsState) (tile : Tile) :
    PointsState × EndDataResult :=
  if tile.canceled then (st, EndDataResult.canceled)
  else
    let queue := st.queues tile.id
    let st1 := { st with queues := fun id => if id = tile.id then Option.none else st.queues id }
    match queue with
    | Option.none => (st1, EndDataResult.jsError)
    | some qs =>
      let objs := buildCollisionObjs env.ppl qs
      (st1, EndDataResult.resolving objs.1 objs.2)

/-! ## Supporting lemmas -/

theorem addCollisionStyle_queues (st : PointsState) (g : String) (i : Nat) :
    (addCollisionStyle st g i).queues = st.queues := rfl

theorem getSpriteInfo_queues (env : Env) (st : PointsState) (texture : String)
    (sprite : Option String) :
    (getSpriteInfo env st texture sprite).2.queues = st.queues := by
  unfold getSpriteInfo
  cases sprite with
  | none => rfl
  | some s =>
    dsimp only
    split
    · rfl
    · split
      · rfl
      · rfl

theorem parseSprite_queues (env : Env) (st : PointsState) (texture : String)
    (draw : Draw) : (parseSprite env st texture draw).2.queues = st.queues := by
  unfold parseSprite
  dsimp only
  split
  · exact getSpriteInfo_queues env st texture draw.sprite
  · rw [getSpriteInfo_queues, getSpriteInfo_queues]

theorem queueFeature_queues (st : PointsState) (q : QFeature) (tile : Tile)
    (tid : Nat) :
    ((queueFeature st q tile).queues tid).getD [] =
      if tid = tile.id then ((st.queues tile.id).getD []) ++ [q]
      else (st.queues tid).getD [] := by
  unfold queueFeature
  dsimp only
  by_cases h : tid = tile.id
  · rw [if_pos h, if_pos h]
    split <;> simp
  · rw [if_neg h, if_neg h]
    split <;> rfl

theorem computeLayout_size (style : PointStyle) (draw : Draw) (tile : Tile) :
    (computeLayout style draw tile).size = style.size := rfl

theorem mkPointStyle_size_le (draw : Draw) (color : Option Color)
    (texture : Option String) (sprite_info : Option SpriteInfo) (w : ℚ) :
    (mkPointStyle draw color texture sprite_info w).size.1 ≤ 256 ∧
    (mkPointStyle draw color texture sprite_info w).size.2 ≤ 256 := by
  unfold mkPointStyle computePointSize
  exact ⟨min_le_right _ _, min_le_right _ _⟩

theorem attachTextPriority_ge (declared : Bool) (lp pp : ℚ) :
    pp + 1/2 ≤ attachTextPriority declared lp pp := by
  unfold attachTextPriority
  split
  · exact le_max_right _ _
  · exact le_refl _

theorem resolveTextFeature_priority (env : Env) (feature : Feature) (draw : Draw)
    (tile : Tile) (style : PointStyle) (t : TextFeature)
    (h : resolveTextFeature env feature draw tile style = some t) :
    style.priority + 1/2 ≤ t.layout.priority := by
  unfold resolveTextFeature at h
  cases hp : parseTextForPoint env feature draw tile with
  | noText => rw [hp] at h; cases h
  | boundary tfs => rw [hp] at h; cases h
  | single t0 =>
    rw [hp] at h
    cases h
    exact attachTextPriority_ge _ _ _

theorem addFeatureQueued_queues (env : Env) (st : PointsState) (f : Feature)
    (d : Draw) (tile : Tile) (si : Option SpriteInfo) (tid : Nat) :
    ((addFeatureQueued env st f d tile si).queues tid).getD [] =
      if tid = tile.id then
        (st.queues tile.id).getD [] ++
          [mkQueued f d tile (addFeatureStyle env d tile si)
            (resolveTextFeature env f d tile (addFeatureStyle env d tile si))]
      else (st.queues tid).getD [] := by
  unfold addFeatureQueued
  dsimp only
  rw [addCollisionStyle_queues, queueFeature_queues]
  cases resolveTextFeature env f d tile (addFeatureStyle env d tile si) <;> rfl

/-- Membership in the queues after `addFeature`: either the element was
already queued, or it is the freshly assembled queued feature. -/
theorem addFeature_mem (env : Env) (st : PointsState) (f : Feature) (d : Draw)
    (tile : Tile) (tid : Nat) (q : QFeature)
    (hq : q ∈ ((addFeature env st f d tile).queues tid).getD []) :
    q ∈ (st.queues tid).getD [] ∨
    (∃ si, q = mkQueued f d tile (addFeatureStyle env d tile si)
      (resolveTextFeature env f d tile (addFeatureStyle env d tile si))) := by
  unfold addFeature at hq
  split at hq
  · exact Or.inl hq
  · unfold addFeatureChecked at hq
    dsimp only at hq
    split at hq
    · exact Or.inl hq
    · by_cases hhs : hasSprites env (drawTexture env d) = true
      · simp only [hhs, eq_self_iff_true, if_true, true_and] at hq
        split at hq
        · -- sprite required but missing: queues unchanged
          rw [parseSprite_queues] at hq
          exact Or.inl hq
        · rw [addFeatureQueued_queues] at hq
          by_cases h : tid = tile.id
          · rw [if_pos h] at hq
            rcases List.mem_append.mp hq with hold | hnew
            · rw [parseSprite_queues] at hold
              subst h
              exact Or.inl hold
            · exact Or.inr ⟨_, List.mem_singleton.mp hnew⟩
          · rw [if_neg h] at hq
            rw [parseSprite_queues] at hq
            exact Or.inl hq
      · simp only [hhs, Bool.false_eq_true, if_false, false_and] at hq
        rw [addFeatureQueued_queues] at hq
        by_cases h : tid = tile.id
        · rw [if_pos h] at hq
          rcases List.mem_append.mp hq with hold | hnew
          · subst h
            exact Or.inl hold
          · exact Or.inr ⟨_, List.mem_singleton.mp hnew⟩
        · rw [if_neg h] at hq
          exact Or.inl hq

theorem list_getD_append_add_of_len {α : Type} (l l' : List α) (n i : Nat) (d : α)
    (h : l.length = n) : (l ++ l').getD (n + i) d = l'.getD i d := by
  subst h
  exact list_getD_append_add l l' i d

/-- The point/text linkage invariant of the collision candidate arena built by
`endData`: every text object points at a valid point object, that point
object points back exactly when the text is non-optional, and every back-link
from a point object comes from its own non-optional text object. -/
def WellLinked (objs : List PointObj × List TextObj) : Prop :=
  (∀ j, j < objs.2.length →
    (objs.2.getD j dTextObj).linked < objs.1.length ∧
    (objs.1.getD (objs.2.getD j dTextObj).linked dPointObj).linked =
      (if (objs.2.getD j dTextObj).optional then Option.none else some j)) ∧
  (∀ i jj, i < objs.1.length →
    (objs.1.getD i dPointObj).linked = some jj →
    jj < objs.2.length ∧ (objs.2.getD jj dTextObj).linked = i ∧
    (objs.2.getD jj dTextObj).optional = false)

theorem wellLinked_nil : WellLinked ([], []) := by
  constructor
  · intro j hj
    simp at hj
  · intro i jj hi
    simp at hi

theorem wellLinked_push (q : QFeature) (label : LabelPoint)
    (acc : List PointObj × List TextObj) (h : WellLinked acc) :
    WellLinked (pushObjs q label acc) := by
  obtain ⟨hfwd, hrev⟩ := h
  unfold pushObjs
  cases htf : q.text_feature with
  | none =>
    dsimp only
    constructor
    · intro j hj
      obtain ⟨hlt, heq⟩ := hfwd j hj
      refine ⟨?_, ?_⟩
      · simpa [List.length_append] using Nat.lt_succ_of_lt hlt
      · rw [list_getD_append_left _ _ _ _ hlt]
        exact heq
    · intro i jj hi hlink
      rw [List.length_append] at hi
      rcases Nat.lt_or_ge i acc.1.length with hlt | hge
      · rw [list_getD_append_left _ _ _ _ hlt] at hlink
        exact hrev i jj hlt hlink
      · have hieq : i = acc.1.length := by
          simp only [List.length_cons, List.length_nil] at hi
          omega
        subst hieq
        rw [list_getD_concat_len] at hlink
        simp at hlink
  | some tf =>
    dsimp only
    constructor
    · intro j hj
      simp only [List.length_append, List.length_cons, List.length_nil] at hj ⊢
      rcases Nat.lt_or_ge j acc.2.length with hlt | hge
      · rw [list_getD_append_left _ _ _ _ hlt]
        obtain ⟨hplt, heq⟩ := hfwd j hlt
        refine ⟨Nat.lt_succ_of_lt hplt, ?_⟩
        rw [list_getD_append_left _ _ _ _ hplt]
        exact heq
      · have hjeq : j = acc.2.length := by omega
        subst hjeq
        rw [list_getD_concat_len]
        dsimp only
        refine ⟨Nat.lt_succ_self _, ?_⟩
        rw [list_getD_concat_len]
    · intro i jj hi hlink
      simp only [List.length_append, List.length_cons, List.length_nil] at hi ⊢
      rcases Nat.lt_or_ge i acc.1.length with hlt | hge
      · rw [list_getD_append_left _ _ _ _ hlt] at hlink
        obtain ⟨hjlt, hback, hopt⟩ := hrev i jj hlt hlink
        refine ⟨Nat.lt_succ_of_lt hjlt, ?_, ?_⟩
        · rw [list_getD_append_left _ _ _ _ hjlt]
          exact hback
        · rw [list_getD_append_left _ _ _ _ hjlt]
          exact hopt
      · have hieq : i = acc.1.length := by omega
        subst hieq
        rw [list_getD_concat_len] at hlink
        dsimp only at hlink
        split at hlink
        · cases hlink
        · cases hlink
          refine ⟨Nat.lt_succ_self _, ?_, ?_⟩
          · rw [list_getD_concat_len]
          · rw [list_getD_concat_len]
            dsimp only
            rename_i hopt
            simpa using hopt

theorem wellLinked_build (ppl : PPL) (queue : List QFeature) :
    WellLinked (buildCollisionObjs ppl queue) := by
  unfold buildCollisionObjs
  refine list_foldl_preserves _ WellLinked ?_ queue ([], []) wellLinked_nil
  intro s q hs
  exact list_foldl_preserves _ WellLinked
    (fun s' l h' => wellLinked_push q l s' h') _ s hs

theorem quantizeAttr_close (x : ℚ) : |x - (quantizeAttr x : ℚ)| ≤ 1 := by
  unfold quantizeAttr
  split
  · rw [abs_le]
    have h1 := Int.floor_le x
    have h2 := Int.lt_floor_add_one x
    constructor <;> linarith
  · rw [abs_le]
    have h1 := Int.le_ceil x
    have h2 := Int.ceil_lt_add_one x
    constructor <;> linarith

theorem decode_quantize_close (θ : ℚ) :
    |θ - decodeAngleAttr (quantizeAttr (θ * 4096))| ≤ 1 / 4096 := by
  unfold decodeAngleAttr
  have h := quantizeAttr_close (θ * 4096)
  have heq : θ - (quantizeAttr (θ * 4096) : ℚ) / 4096
      = (θ * 4096 - (quantizeAttr (θ * 4096) : ℚ)) / 4096 := by ring
  rw [heq, abs_div]
  have habs : |(4096 : ℚ)| = 4096 := by norm_num
  rw [habs]
  gcongr

/-! ## Concrete fixtures (used by witness theorems) -/

/-- A concrete vertex-placement strategy: one label per line vertex. -/
def pplVertex : PPL := fun line size opts =>
  line.map (fun c => { position := c, size := size, layout := opts })

/-- A concrete parsed text feature. -/
def tfDemo : TextFeature :=
  { text := "A", text_settings_key := "k",
    draw := { visible := true, priority := Option.none, optional := false },
    layout := { priority := 2, move_into_tile := true, parent := Option.none } }

/-- A concrete environment: no registered textures, a text parser that always
yields `tfDemo`, vertex line placement. -/
def envDemo : Env :=
  { textures := fun _ => Option.none
    style_texture := Option.none
    default_outline_width := 2
    parseTextFeature := fun _ _ _ => TextFeatureResult.single tfDemo
    ppl := pplVertex }

/-- A concrete fresh style state at generation 3. -/
def stDemo : PointsState :=
  { generation := 3, queues := fun _ => Option.none, tile_data := fun _ => false,
    collision_styles := [], texture_missing_sprites := [] }

/-- A concrete live tile matching `stDemo`'s generation. -/
def tileDemo : Tile :=
  { id := 7, key := "t", generation := 3, canceled := false, units_per_pixel := 2 }

/-- `tileDemo` with a stale generation. -/
def tileStale : Tile := { tileDemo with generation := 4 }

/-- `tileDemo` after cancellation. -/
def tileCanceled : Tile := { tileDemo with canceled := true }

/-- A concrete point feature. -/
def featDemo : Feature := { geometry := Geometry.point (1, 2), id := 0 }

/-- A concrete draw group: colored, an oversized requested size, an attached
required text. -/
def drawDemo : Draw :=
  { dDraw with
    color := some (1, 0, 0, 1)
    size := some (SizeVal.two (500, 10))
    text := some { visible := true, priority := Option.none, optional := false } }

/-- The demo style as queued for `endData`. -/
def styleDemo : PointStyle := addFeatureStyle envDemo drawDemo tileDemo Option.none

/-- The demo resolved text feature as queued for `endData`. -/
def tfResolvedDemo : Option TextFeature :=
  resolveTextFeature envDemo featDemo drawDemo tileDemo styleDemo

/-- The queued feature produced by `addFeature` on the demo fixtures. -/
def qDemo : QFeature := mkQueued featDemo drawDemo tileDemo styleDemo tfResolvedDemo

/-- A concrete one-element queue with an attached required text feature. -/
def queueDemo : List QFeature := [qDemo]

/-- A concrete style with centroid placement. -/
def optionsCentroid : PointStyle := { dPointStyle with placement := PLACEMENT.CENTROID }

/-- Outer square ring 4x4. -/
def ringSquare : List Pt := [(0, 0), (4, 0), (4, 4), (0, 4)]

/-- Inner hole ring. -/
def ringHole : List Pt := [(1, 1), (2, 1), (2, 2), (1, 2)]

/-- A concrete one-segment curved label. -/
def labelCurvedDemo : CurvedLabel :=
  { position := (0, 0), angle := 1, offset := Option.none, type := "curved",
    num_segments := 1, angles := [[1/2]], pre_angles := [[1/4]], offsets := [[3]] }

/-- A concrete curved style matching `labelCurvedDemo`. -/
def styleCurvedDemo : CurvedStyle :=
  { size := fun _ => [(8, 8)], texcoords := fun _ => [[0, 0, 1, 1]],
    texcoords_stroke := [[0, 1, 1, 0]], label_textures := ["tex0"] }

/-! ## Claim theorems -/

/-- C1: for every point feature processed by `addFeature`, the label size is
clamped to at most 256 in each dimension independently, after any outline
width is added: the final size is the per-dimension min of the pre-clamp size
and 256; a requested [500, 10] becomes [256, 10] while [10, 10] is unchanged;
and every feature `addFeature` queues carries a size at most 256 per
dimension. -/
theorem c1_point_size_clamped_to_256 :
    (∀ ds si ow oc, computePointSize ds si ow oc =
      (min (prePointSize ds si ow oc).1 256, min (prePointSize ds si ow oc).2 256)) ∧
    computePointSize (some (SizeVal.two (500, 10))) Option.none Option.none Option.none
      = (256, 10) ∧
    computePointSize (some (SizeVal.two (10, 10))) Option.none Option.none Option.none
      = (10, 10) ∧
    (∀ env st f d tile tid q,
      q ∈ ((addFeature env st f d tile).queues tid).getD [] →
      q ∈ (st.queues tid).getD [] ∨
        (q.style.size.1 ≤ 256 ∧ q.style.size.2 ≤ 256)) := by
  refine ⟨?_, ?_, ?_, ?_⟩
  · intro ds si ow oc
    rfl
  · decide
  · decide
  · intro env st f d tile tid q hq
    rcases addFeature_mem env st f d tile tid q hq with hold | ⟨si, rfl⟩
    · exact Or.inl hold
    · right
      unfold mkQueued addFeatureStyle
      dsimp only
      rw [computeLayout_size]
      exact mkPointStyle_size_le _ _ _ _ _

/-- Witness for C1 at the demo fixtures. -/
theorem c1_witness :
    qDemo ∈ ((stDemo.queues tileDemo.id).getD []) ∨
      (qDemo.style.size.1 ≤ 256 ∧ qDemo.style.size.2 ≤ 256) :=
  c1_point_size_clamped_to_256.2.2.2 envDemo stDemo featDemo drawDemo tileDemo
    tileDemo.id qDemo (List.Mem.head _)

/-- C2: for every queued feature with an attached text feature, `endData`
links each text object one-way to its point object, and creates the reverse
link from the point object to the text object exactly when the text is not
optional; every reverse link comes from the point object's own non-optional
text object, so exactly one linkage mode applies per point+text pair. -/
theorem c2_point_text_linkage (ppl : PPL) (queue : List QFeature) :
    (∀ j, j < (buildCollisionObjs ppl queue).2.length →
      ((buildCollisionObjs ppl queue).2.getD j dTextObj).linked <
          (buildCollisionObjs ppl queue).1.length ∧
      ((buildCollisionObjs ppl queue).1.getD
          ((buildCollisionObjs ppl queue).2.getD j dTextObj).linked dPointObj).linked =
        (if ((buildCollisionObjs ppl queue).2.getD j dTextObj).optional
         then Option.none else some j)) ∧
    (∀ i jj, i < (buildCollisionObjs ppl queue).1.length →
      ((buildCollisionObjs ppl queue).1.getD i dPointObj).linked = some jj →
      jj < (buildCollisionObjs ppl queue).2.length ∧
      ((buildCollisionObjs ppl queue).2.getD jj dTextObj).linked = i ∧
      ((buildCollisionObjs ppl queue).2.getD jj dTextObj).optional = false) := by
  exact wellLinked_build ppl queue

/-- Witness for C2 at a one-feature queue with required text. -/
theorem c2_witness :
    ((buildCollisionObjs pplVertex queueDemo).2.getD 0 dTextObj).linked <
        (buildCollisionObjs pplVertex queueDemo).1.length ∧
    ((buildCollisionObjs pplVertex queueDemo).1.getD
        ((buildCollisionObjs pplVertex queueDemo).2.getD 0 dTextObj).linked dPointObj).linked =
      (if ((buildCollisionObjs pplVertex queueDemo).2.getD 0 dTextObj).optional
       then Option.none else some 0) :=
  (c2_point_text_linkage pplVertex queueDemo).1 0 (by decide)

theorem map_range_append_getD_left {β : Type} (n : Nat) (f g : Nat → β) (i : Nat)
    (d : β) (h : i < n) :
    (((List.range n).map f) ++ ((List.range n).map g)).getD i d = f i := by
  rw [list_getD_append_left _ _ _ _ (by simpa using h)]
  rw [list_getD_map _ _ _ _ 0 (by simpa using h)]
  rw [list_getD_range _ _ _ h]

theorem map_range_append_getD_right {β : Type} (n : Nat) (f g : Nat → β) (i : Nat)
    (d : β) (h : i < n) :
    (((List.range n).map f) ++ ((List.range n).map g)).getD (n + i) d = g i := by
  rw [list_getD_append_add_of_len _ _ n i d (by simp)]
  rw [list_getD_map _ _ _ _ 0 (by simpa using h)]
  rw [list_getD_range _ _ _ h]

/-- C3: `buildArticulatedLabel` performs exactly two full passes over all
`num_segments` segments — the stroke pass (stroke texcoords) occupies indices
0..n-1, entirely before the fill pass (fill texcoords) at indices n..2n-1 —
and each pass emits one quad per segment using that segment's own angles,
pre-angles and offsets. -/
theorem c3_articulated_label_two_passes (pi : ℚ) (label : CurvedLabel)
    (style : CurvedStyle) :
    (buildArticulatedLabel pi label style).length = 2 * label.num_segments ∧
    (∀ i, i < label.num_segments →
      ((buildArticulatedLabel pi label style).getD i dQuadConfig).angles
          = some (label.angles.getD i []) ∧
      ((buildArticulatedLabel pi label style).getD i dQuadConfig).pre_angles
          = some (label.pre_angles.getD i []) ∧
      ((buildArticulatedLabel pi label style).getD i dQuadConfig).offsets
          = some (label.offsets.getD i []) ∧
      ((buildArticulatedLabel pi label style).getD i dQuadConfig).texcoord_scale
          = some (style.texcoords_stroke.getD i []) ∧
      ((buildArticulatedLabel pi label style).getD i dQuadConfig).curve = true) ∧
    (∀ i, i < label.num_segments →
      ((buildArticulatedLabel pi label style).getD (label.num_segments + i) dQuadConfig).angles
          = some (label.angles.getD i []) ∧
      ((buildArticulatedLabel pi label style).getD (label.num_segments + i) dQuadConfig).pre_angles
          = some (label.pre_angles.getD i []) ∧
      ((buildArticulatedLabel pi label style).getD (label.num_segments + i) dQuadConfig).offsets
          = some (label.offsets.getD i []) ∧
      ((buildArticulatedLabel pi label style).getD (label.num_segments + i) dQuadConfig).texcoord_scale
          = some ((style.texcoords label.type).getD i []) ∧
      ((buildArticulatedLabel pi label style).getD (label.num_segments + i) dQuadConfig).curve = true) := by
  refine ⟨?_, ?_, ?_⟩
  · unfold buildArticulatedLabel
    rw [List.length_append, List.length_map, List.length_map, List.length_range]
    omega
  · intro i hi
    unfold buildArticulatedLabel
    rw [map_range_append_getD_left _ _ _ _ _ hi]
    exact ⟨rfl, rfl, rfl, rfl, rfl⟩
  · intro i hi
    unfold buildArticulatedLabel
    rw [map_range_append_getD_right _ _ _ _ _ hi]
    exact ⟨rfl, rfl, rfl, rfl, rfl⟩

/-- Witness for C3: stroke-pass quad of the one-segment demo label. -/
theorem c3_witness :
    ((buildArticulatedLabel 3 labelCurvedDemo styleCurvedDemo).getD 0 dQuadConfig).angles
        = some (labelCurvedDemo.angles.getD 0 []) ∧
    ((buildArticulatedLabel 3 labelCurvedDemo styleCurvedDemo).getD 0 dQuadConfig).pre_angles
        = some (labelCurvedDemo.pre_angles.getD 0 []) ∧
    ((buildArticulatedLabel 3 labelCurvedDemo styleCurvedDemo).getD 0 dQuadConfig).offsets
        = some (labelCurvedDemo.offsets.getD 0 []) ∧
    ((buildArticulatedLabel 3 labelCurvedDemo styleCurvedDemo).getD 0 dQuadConfig).texcoord_scale
        = some (styleCurvedDemo.texcoords_stroke.getD 0 []) ∧
    ((buildArticulatedLabel 3 labelCurvedDemo styleCurvedDemo).getD 0 dQuadConfig).curve = true :=
  (c3_articulated_label_two_passes 3 labelCurvedDemo styleCurvedDemo).2.1 0 (by decide)

/-- C4: `buildQuad` encodes the primary angle attribute by multiplying the
radian angle by 4096 (12-bit fractional scale); decoding the integer-quantized
attribute by dividing by 4096 recovers the input angle within one quantization
step (at most 2π/4096 rad). -/
theorem c4_angle_fixed_point_roundtrip (pi : ℚ) (points : List Pt) (size : Size2)
    (angles pre_angles offsets : Option (List ℚ)) (offset : ℚ × ℚ)
    (texcoord_scale : Option Texcoords) (curve : Bool) (θ : ℚ) :
    (buildQuad pi points size θ angles pre_angles offset offsets texcoord_scale curve).angle
      = θ * 4096 ∧
    |(θ : ℝ) - ((decodeAngleAttr (quantizeAttr (θ * 4096)) : ℚ) : ℝ)|
      ≤ 2 * Real.pi / 4096 := by
  refine ⟨rfl, ?_⟩
  have h := decode_quantize_close θ
  have hcast : |(θ : ℝ) - ((decodeAngleAttr (quantizeAttr (θ * 4096)) : ℚ) : ℝ)|
      ≤ 1 / 4096 := by
    have h2 : ((|θ - decodeAngleAttr (quantizeAttr (θ * 4096))| : ℚ) : ℝ)
        ≤ (((1 : ℚ) / 4096 : ℚ) : ℝ) := by
      exact_mod_cast h
    push_cast at h2
    exact h2
  have hpi := Real.pi_gt_three
  linarith

/-- C5: every quad built by the encoder carries exactly the normalization
constants 128/π for per-segment pre-angles, 16384/π for per-segment angles,
64 for per-segment offsets, and 65535 for texture coordinates — both directly
from `buildQuad` and for every quad emitted by `buildArticulatedLabel`. -/
theorem c5_quad_normalization_constants (pi : ℚ) :
    (∀ points size angle angles pre_angles offset offsets texcoord_scale curve,
      (buildQuad pi points size angle angles pre_angles offset offsets texcoord_scale curve).pre_angles_normalize
          = 128 / pi ∧
      (buildQuad pi points size angle angles pre_angles offset offsets texcoord_scale curve).angles_normalize
          = 16384 / pi ∧
      (buildQuad pi points size angle angles pre_angles offset offsets texcoord_scale curve).offsets_normalize
          = 64 ∧
      (buildQuad pi points size angle angles pre_angles offset offsets texcoord_scale curve).texcoord_normalize
          = 65535) ∧
    (∀ label style q, q ∈ buildArticulatedLabel pi label style →
      q.pre_angles_normalize = 128 / pi ∧ q.angles_normalize = 16384 / pi ∧
      q.offsets_normalize = 64 ∧ q.texcoord_normalize = 65535) := by
  constructor
  · intro points size angle angles pre_angles offset offsets texcoord_scale curve
    exact ⟨rfl, rfl, rfl, rfl⟩
  · intro label style q hq
    unfold buildArticulatedLabel at hq
    rcases List.mem_append.mp hq with hm | hm <;>
    · rcases List.mem_map.mp hm with ⟨i, hi, rfl⟩
      exact ⟨rfl, rfl, rfl, rfl⟩

/-- Witness for C5 at the demo curved label. -/
theorem c5_witness :
    ((buildArticulatedLabel 3 labelCurvedDemo styleCurvedDemo).getD 0 dQuadConfig).pre_angles_normalize
        = 128 / 3 ∧
    ((buildArticulatedLabel 3 labelCurvedDemo styleCurvedDemo).getD 0 dQuadConfig).angles_normalize
        = 16384 / 3 ∧
    ((buildArticulatedLabel 3 labelCurvedDemo styleCurvedDemo).getD 0 dQuadConfig).offsets_normalize
        = 64 ∧
    ((buildArticulatedLabel 3 labelCurvedDemo styleCurvedDemo).getD 0 dQuadConfig).texcoord_normalize
        = 65535 :=
  (c5_quad_normalization_constants 3).2 labelCurvedDemo styleCurvedDemo
    ((buildArticulatedLabel 3 labelCurvedDemo styleCurvedDemo).getD 0 dQuadConfig)
    (List.Mem.head _)

/-- C6: with `placement == CENTROID`, `buildLabels` produces exactly one
candidate for a Polygon — at the outer-ring area centroid, independent of the
hole rings — and exactly one for a MultiPolygon at the area-weighted
multi-centroid; with any other placement it produces line-placement labels
along every ring of every polygon. -/
theorem c6_polygon_centroid_placement (ppl : PPL) (size : Size2)
    (options : PointStyle) :
    (∀ rings, options.placement = PLACEMENT.CENTROID →
      buildLabels ppl size (Geometry.polygon rings) options =
        [{ position := Geo.centroid rings, size := size, layout := options }]) ∧
    (∀ polys, options.placement = PLACEMENT.CENTROID →
      buildLabels ppl size (Geometry.multiPolygon polys) options =
        [{ position := Geo.multiCentroid polys, size := size, layout := options }]) ∧
    (∀ outer holes holes', Geo.centroid (outer :: holes) = Geo.centroid (outer :: holes')) ∧
    (∀ rings, options.placement ≠ PLACEMENT.CENTROID →
      buildLabels ppl size (Geometry.polygon rings) options =
        (rings.map (fun ring => ppl ring size options)).flatten) ∧
    (∀ polys, options.placement ≠ PLACEMENT.CENTROID →
      buildLabels ppl size (Geometry.multiPolygon polys) options =
        (polys.map (fun rings =>
          (rings.map (fun ring => ppl ring size options)).flatten)).flatten) := by
  refine ⟨?_, ?_, ?_, ?_, ?_⟩
  · intro rings hc
    simp only [buildLabels]
    rw [if_pos hc]
  · intro polys hc
    simp only [buildLabels]
    rw [if_pos hc]
  · intro outer holes holes'
    rfl
  · intro rings hc
    simp only [buildLabels]
    rw [if_neg hc]
  · intro polys hc
    simp only [buildLabels]
    rw [if_neg hc]

/-- Witness for C6: centroid placement on a square with a hole. -/
theorem c6_witness :
    buildLabels pplVertex (20, 20) (Geometry.polygon [ringSquare, ringHole]) optionsCentroid =
      [{ position := Geo.centroid [ringSquare, ringHole], size := (20, 20),
         layout := optionsCentroid }] :=
  (c6_polygon_centroid_placement pplVertex (20, 20) optionsCentroid).1
    [ringSquare, ringHole] (by decide)

/-- C7: a geometry whose type is none of the six recognized ones yields an
empty candidate list from `buildLabels`, with no failure (the function is
total). -/
theorem c7_unrecognized_geometry_no_labels (ppl : PPL) (size : Size2)
    (options : PointStyle) (typeName : String) :
    buildLabels ppl size (Geometry.unrecognized typeName) options = [] := rfl

/-- C8: when the tile is canceled, `endData` returns a resolved discard
outcome immediately: the style state is untouched, no collision candidates
are built, and the outcome is the non-error `canceled` marker. -/
theorem c8_canceled_tile_short_circuit (env : Env) (st : PointsState) (tile : Tile)
    (h : tile.canceled = true) :
    endData env st tile = (st, EndDataResult.canceled) := by
  unfold endData
  rw [if_pos h]

/-- Witness for C8 at a concrete canceled tile. -/
theorem c8_witness :
    endData envDemo stDemo tileCanceled = (stDemo, EndDataResult.canceled) :=
  c8_canceled_tile_short_circuit envDemo stDemo tileCanceled rfl

/-- C9: a feature offered to `addFeature` whose tile generation differs from
the style's current generation is discarded silently: the returned state is
exactly the input state (queues, collision registrations and all other style
state unchanged). -/
theorem c9_stale_generation_discarded (env : Env) (st : PointsState) (f : Feature)
    (d : Draw) (tile : Tile) (h : tile.generation ≠ st.generation) :
    addFeature env st f d tile = st := by
  unfold addFeature
  rw [if_pos h]

/-- Witness for C9 at a concrete stale tile. -/
theorem c9_witness : addFeature envDemo stDemo featDemo drawDemo tileStale = stDemo :=
  c9_stale_generation_discarded envDemo stDemo featDemo drawDemo tileStale (by decide)

/-- C10: a text feature attached to a point always receives priority at least
the parent point priority + 0.5 — exactly that value when no text priority is
declared, and at least it (via max) when one is — so under lower-is-higher
precedence the attached text never outranks its parent point; this holds for
every queued feature produced by `addFeature`. -/
theorem c10_attached_text_priority_floor :
    (∀ declared lp pp, pp + 1/2 ≤ attachTextPriority declared lp pp ∧
      (declared = false → attachTextPriority declared lp pp = pp + 1/2)) ∧
    (∀ env st f d tile tid q tf,
      q ∈ ((addFeature env st f d tile).queues tid).getD [] →
      q.text_feature = some tf →
      q ∈ (st.queues tid).getD [] ∨ q.style.priority + 1/2 ≤ tf.layout.priority) := by
  constructor
  · intro declared lp pp
    refine ⟨attachTextPriority_ge declared lp pp, ?_⟩
    intro hd
    subst hd
    rfl
  · intro env st f d tile tid q tf hq htf
    rcases addFeature_mem env st f d tile tid q hq with hold | ⟨si, rfl⟩
    · exact Or.inl hold
    · right
      unfold mkQueued at htf ⊢
      dsimp only at htf ⊢
      exact resolveTextFeature_priority _ _ _ _ _ _ htf

/-- Witness for C10 at the demo fixtures. -/
theorem c10_witness :
    qDemo ∈ ((stDemo.queues tileDemo.id).getD []) ∨
      qDemo.style.priority + 1/2 ≤ (tfResolvedDemo.getD tfDemo).layout.priority :=
  c10_attached_text_priority_floor.2 envDemo stDemo featDemo drawDemo tileDemo
    tileDemo.id qDemo (tfResolvedDemo.getD tfDemo) (List.Mem.head _) rfl

end Tangram
